import Mathlib

/-
Shallow embedding of `src/app.py` (PowerBi-ReportPath): the `/get_report`
coordinator, the SQLite ledger helpers (`already_downloaded`, `save_to_db`,
`cleanup_invalid_records`) and the artifact persist (`save_file_locally`).

Modelling conventions:
- Strings stand for Python strings; missing request parameters are the empty
  string (Python truthiness treats `None` and `""` alike at the guard on
  app.py line 273).
- JSON values extracted from the status response (`data.get("id")`,
  `data.get("outputFile")`) are modelled as `Option String` (absent key = none);
  `isReady` is modelled as `Bool` (a missing key is falsy at line 331).
- The SQLite table is a list of rows, most recent `downloaded_at` first:
  `INSERT` conses at the head, and the upsert's `downloaded_at=CURRENT_TIMESTAMP`
  moves the refreshed row to the head, so `ORDER BY downloaded_at DESC LIMIT 1`
  is `List.find?`.
- Exceptions swallowed by `except:` blocks are modelled by boolean "this
  operation succeeded" fields of the environment.
- Network effects (render-status responses, the artifact fetch) are supplied
  by an environment oracle; the coordinator records how many status calls,
  sleeps and persist attempts it performs.
-/

/-- Python truthiness of a string: non-empty strings are truthy. -/
def truthyStr (s : String) : Bool := s != ""

/-- Python truthiness of an optional string: `None` and `""` are falsy. -/
def isTruthy : Option String → Bool
  | none => false
  | some s => truthyStr s

/-- Python `str(x)` on an optional string (`str(None) = "None"`), as applied
to `request_render_id` / `api_render_id` in `already_downloaded`. -/
def pyStr : Option String → String
  | none => "None"
  | some s => s

/-- Models app.py lines 284-285: strip a leading `"Bearer "` from the token. -/
def stripBearer (t : String) : String :=
  if "Bearer ".data.isPrefixOf t.data then String.mk (t.data.drop 7) else t

/-- Python `a or b` on optional strings, as in `token_override or TOKEN`
(app.py line 243). -/
def orToken (a b : Option String) : Option String :=
  if isTruthy a then a else b

/-- One row of the `downloaded_reports` table (app.py lines 112-121).
The `id` and `downloaded_at` columns are modelled by list position
(head of the ledger list = largest `downloaded_at`). -/
structure RenderRecord where
  application_id : String
  report_id : String
  request_render_id : String
  api_render_id : String
  file_name : String
  file_path : String
deriving DecidableEq

/-- The column tuple of the unique index `ux_reports_unique`
(app.py lines 149-152). -/
def conflictKey (r : RenderRecord) : String × String × String × String :=
  (r.application_id, r.report_id, r.api_render_id, r.file_name)

/-- The WHERE clause of the request-render-id lookup (app.py lines 196-200). -/
def matchesReq (application_id report_id request_render_id : String)
    (r : RenderRecord) : Bool :=
  r.application_id == application_id && r.report_id == report_id &&
    r.request_render_id == request_render_id

/-- The WHERE clause of the canonical (api) render-id lookup
(app.py lines 190-194). -/
def matchesApi (application_id report_id api_render_id : String)
    (r : RenderRecord) : Bool :=
  r.application_id == application_id && r.report_id == report_id &&
    r.api_render_id == api_render_id

/-- The invariant enforced by the unique index `ux_reports_unique`:
no two rows share a conflict key. -/
def KeysNodup (db : List RenderRecord) : Prop := (db.map conflictKey).Nodup

instance (db : List RenderRecord) : Decidable (KeysNodup db) :=
  inferInstanceAs (Decidable ((db.map conflictKey).Nodup))

/-- The row slice `SELECT file_name, file_path` returned by
`already_downloaded`. -/
structure CacheHit where
  file_name : String
  file_path : String
deriving DecidableEq

/-- Model of `already_downloaded` (app.py lines 185-205). `dbOk = false`
models a storage-layer exception, which the function catches and converts
to `None` (a cache miss). Otherwise: if `api_render_id` is truthy, look up
by `(application_id, report_id, api_render_id)`, else by
`(application_id, report_id, request_render_id)`; the most recent matching
row wins (`ORDER BY downloaded_at DESC LIMIT 1`). -/
def already_downloaded (dbOk : Bool) (db : List RenderRecord)
    (application_id report_id : String)
    (request_render_id api_render_id : Option String) : Option CacheHit :=
  if !dbOk then none
  else if isTruthy api_render_id then
    (db.find? (matchesApi application_id report_id (pyStr api_render_id))).map
      (fun r => ⟨r.file_name, r.file_path⟩)
  else
    (db.find? (matchesReq application_id report_id (pyStr request_render_id))).map
      (fun r => ⟨r.file_name, r.file_path⟩)

/-- Model of `save_to_db` (app.py lines 207-220): INSERT, or on a conflict
against `ux_reports_unique` UPDATE `file_path` and refresh `downloaded_at`
(modelled by moving the refreshed row to the head). `dbOk = false` models a
swallowed SQLite exception leaving the table unchanged. -/
def save_to_db (dbOk : Bool) (db : List RenderRecord)
    (application_id report_id request_render_id api_render_id
      file_name file_path : String) : List RenderRecord :=
  if !dbOk then db
  else
    match db.find? (fun r =>
        conflictKey r == (application_id, report_id, api_render_id, file_name)) with
    | some old =>
      { old with file_path := file_path } ::
        db.filter (fun r => !(conflictKey r == conflictKey old))
    | none =>
      ⟨application_id, report_id, request_render_id, api_render_id,
        file_name, file_path⟩ :: db

/-- Duplicate removal per conflict-key group, keeping the most recent row.
Models the second DELETE of `cleanup_invalid_records` (app.py lines 173-179);
on a table satisfying `KeysNodup` (the unique index) it is the identity. -/
def dedupByConflictKey : List RenderRecord → List RenderRecord
  | [] => []
  | r :: rs =>
    r :: (dedupByConflictKey rs).filter (fun x => !(conflictKey x == conflictKey r))

/-- Model of `cleanup_invalid_records` (app.py lines 168-183), run by
`init_db` at the start of every `get_report` request. Rows with NULL
`file_name`/`file_path` are unrepresentable in this model (fields are total),
so only the duplicate-removal DELETE remains. -/
def cleanup_invalid_records (db : List RenderRecord) : List RenderRecord :=
  dedupByConflictKey db

/-- The local filesystem: a map from paths to byte contents. -/
structure FS where
  files : List (String × List Nat)
deriving DecidableEq

/-- Whether a path exists on the filesystem. -/
def FS.hasPath (fs : FS) (p : String) : Bool := fs.files.any (fun e => e.1 == p)

/-- Write (create or overwrite) a file. -/
def FS.write (fs : FS) (p : String) (content : List Nat) : FS :=
  ⟨(p, content) :: fs.files.filter (fun e => !(e.1 == p))⟩

/-- Remove a file (the source half of `shutil.move`). -/
def FS.remove (fs : FS) (p : String) : FS :=
  ⟨fs.files.filter (fun e => !(e.1 == p))⟩

/-- Environment oracle for one `save_file_locally` call (app.py lines
223-263): configuration, the Google Drive attempt's outcome, the artifact
fetch outcome and the failure points of the local write. -/
structure PersistEnv where
  /-- `GDRIVE_CREDENTIALS or GDRIVE_FOLDER_ID` is set (line 225). -/
  gdriveConfigured : Bool
  /-- result of `save_to_gdrive` (line 226): a link, or `None` on any error. -/
  gdriveResult : Option String
  /-- the module-level `TOKEN` fallback (line 243). -/
  defaultToken : Option String
  /-- `requests.get(file_url, ...)` plus `raise_for_status` succeed (lines 248-249). -/
  fetchOk : Bool
  /-- the streamed content chunks (`r.iter_content`, line 254). -/
  chunks : List (List Nat)
  /-- `some k`: an exception is raised after `k` chunks were written (line 256). -/
  writeFailAfter : Option Nat
  /-- `shutil.move` raises (line 259). -/
  moveFails : Bool

/-- Model of `save_file_locally` (app.py lines 223-263). Tries Google Drive
first when configured; otherwise writes the fetched bytes to
`local_path + ".tmp"` and moves that onto `local_path`. Every exception is
caught by the blanket `except` and surfaces as `none`; note that nothing
removes the temp file on a failure path. The `startswith` guard models the
`os.path.abspath` containment check of line 240. -/
def save_file_locally (env : PersistEnv) (sf : String → String)
    (storagePath : String) (fs : FS) (_file_url file_name : String)
    (token_override : Option String) : Option String × FS :=
  match (if env.gdriveConfigured then env.gdriveResult else none) with
  | some link => (some link, fs)
  | none =>
    let safe := sf file_name
    let local_path := storagePath ++ "/" ++ safe
    if !(storagePath.data.isPrefixOf local_path.data) then (none, fs)
    else if !(isTruthy (orToken token_override env.defaultToken)) then (none, fs)
    else if !env.fetchOk then (none, fs)
    else
      let temp_path := local_path ++ ".tmp"
      match env.writeFailAfter with
      | some k =>
        if k < env.chunks.length then
          (none, FS.write fs temp_path ((env.chunks.take k).flatten))
        else
          let fs1 := FS.write fs temp_path env.chunks.flatten
          if env.moveFails then (none, fs1)
          else (some local_path, FS.write (FS.remove fs1 temp_path) local_path env.chunks.flatten)
      | none =>
        let fs1 := FS.write fs temp_path env.chunks.flatten
        if env.moveFails then (none, fs1)
        else (some local_path, FS.write (FS.remove fs1 temp_path) local_path env.chunks.flatten)

/-- The JSON body of a render-status response: `data.get("id")`,
`data.get("outputFile")`, `data.get("isReady")` (app.py lines 311-313). -/
structure StatusBody where
  id : Option String
  outputFile : Option String
  isReady : Bool
deriving DecidableEq

/-- One HTTP response from the render-status endpoint: status code, and the
parsed JSON body (`none` models `response.json()` raising). -/
structure StatusHttp where
  code : Nat
  body : Option StatusBody
deriving DecidableEq

/-- Outcome of the retry loop of app.py lines 303-318, before the
canonical-id cache check. -/
inductive LoopResult
  /-- all attempts returned 404: "Render not found after retries" (line 318). -/
  | notFoundAfterRetries
  /-- a non-200 non-404 status: "Error fetching render {code}" (line 309). -/
  | httpError (code : Nat)
  /-- `response.json()` raised, caught by the outer handler (line 347). -/
  | jsonError
  /-- missing/falsy `id` or `outputFile`: "No report file info found" (line 315). -/
  | noFileInfo
  /-- a well-formed 200 body: the loop `break`s with these values. -/
  | parsed (api_render_id output_file : String) (is_ready : Bool)
deriving DecidableEq

/-- The `for attempt in range(3)` retry loop (app.py lines 303-318), with
the number of status calls made and of `time.sleep(3)` delays taken.
`resp k` is the upstream's answer to the k-th status call. -/
def statusLoop (resp : Nat → StatusHttp) : Nat → Nat → LoopResult × Nat × Nat
  | _start, 0 => (LoopResult.notFoundAfterRetries, 0, 0)
  | start, n + 1 =>
    let r := resp start
    if r.code == 404 then
      let res := statusLoop resp (start + 1) n
      (res.1, res.2.1 + 1, res.2.2 + 1)
    else if r.code != 200 then (LoopResult.httpError r.code, 1, 0)
    else
      match r.body with
      | none => (LoopResult.jsonError, 1, 0)
      | some b =>
        if !(isTruthy b.id) || !(isTruthy b.outputFile) then
          (LoopResult.noFileInfo, 1, 0)
        else
          (LoopResult.parsed (b.id.getD "") (b.outputFile.getD "") b.isReady, 1, 0)

/-- The distinct responses `get_report` can produce (app.py lines 266-349). -/
inductive Outcome
  /-- 400, "application_id, report_id, and render_id required" (line 274). -/
  | badRequest
  /-- 401, "Missing Authorization token" (line 281). -/
  | missingToken
  /-- 200, "Report already processed", with the cached file name and the
  render id echoed in the response (lines 288-296 and 321-329). -/
  | cached (file_name render_id : String)
  /-- the upstream status code echoed with "Error fetching render" (line 309). -/
  | fetchError (code : Nat)
  /-- 404, "No report file info found" (line 315). -/
  | noFileInfo
  /-- 404, "Render not found after retries" (line 318). -/
  | notFoundAfterRetries
  /-- 500, "Failed to save file" (line 336). -/
  | saveFailed
  /-- 200, "File saved successfully", with the new file name (lines 338-345). -/
  | saved (file_name : String)
  /-- 200, "Report not ready yet", status "processing" (line 346). -/
  | notReady
  /-- 500, "Internal server error" from the blanket handler (line 349). -/
  | internalError
deriving DecidableEq

/-- Environment oracle for one `get_report` request: DB-operation success
flags, the status endpoint, the persist environment, and the process
configuration (`secure_filename`, the timestamp, `BASE_DOMAIN`,
`STORAGE_PATH`). -/
structure CoordEnv where
  /-- the first `already_downloaded` DB query succeeds (line 287). -/
  lookup1Ok : Bool
  /-- the second (canonical-id) `already_downloaded` query succeeds (line 320). -/
  lookup2Ok : Bool
  /-- the `save_to_db` transaction succeeds (line 337). -/
  saveOk : Bool
  /-- the render-status endpoint's response to the k-th call (line 304). -/
  statusResp : Nat → StatusHttp
  /-- the artifact-persist environment (line 334). -/
  persist : PersistEnv
  /-- `werkzeug.utils.secure_filename`. -/
  sf : String → String
  /-- `datetime.now():%Y%m%d_%H%M%S` (line 333). -/
  nowStamp : String
  /-- `BASE_DOMAIN` (line 19). -/
  baseDomain : String
  /-- `STORAGE_PATH` (line 22). -/
  storagePath : String

/-- What one `get_report` request did: the response, the ledger and
filesystem afterwards, and how many status calls, sleeps and persist
attempts it made. -/
structure RunResult where
  outcome : Outcome
  db : List RenderRecord
  fs : FS
  statusCalls : Nat
  sleeps : Nat
  persistCalls : Nat
deriving DecidableEq

/-- The artifact name derived at app.py line 333:
`secure_filename(f"{application_id}-{report_id}-{api_render_id}-{now}.csv")`. -/
def renderFileName (sf : String → String)
    (application_id report_id api_render_id stamp : String) : String :=
  sf (application_id ++ "-" ++ report_id ++ "-" ++ api_render_id ++ "-" ++
    stamp ++ ".csv")

/-- The body of `get_report` after `init_db` (app.py lines 269-349), on a
ledger that has already been cleaned. -/
def get_report_core (env : CoordEnv) (db : List RenderRecord) (fs : FS)
    (application_id report_id request_render_id : String)
    (authToken : Option String) : RunResult :=
  if application_id == "" || report_id == "" || request_render_id == "" then
    ⟨Outcome.badRequest, db, fs, 0, 0, 0⟩
  else if !(isTruthy authToken) then
    ⟨Outcome.missingToken, db, fs, 0, 0, 0⟩
  else
    match already_downloaded env.lookup1Ok db application_id report_id
        (some request_render_id) none with
    | some c => ⟨Outcome.cached c.file_name request_render_id, db, fs, 0, 0, 0⟩
    | none =>
      match statusLoop env.statusResp 0 3 with
      | (LoopResult.notFoundAfterRetries, calls, sleeps) =>
        ⟨Outcome.notFoundAfterRetries, db, fs, calls, sleeps, 0⟩
      | (LoopResult.httpError code, calls, sleeps) =>
        ⟨Outcome.fetchError code, db, fs, calls, sleeps, 0⟩
      | (LoopResult.jsonError, calls, sleeps) =>
        ⟨Outcome.internalError, db, fs, calls, sleeps, 0⟩
      | (LoopResult.noFileInfo, calls, sleeps) =>
        ⟨Outcome.noFileInfo, db, fs, calls, sleeps, 0⟩
      | (LoopResult.parsed api_render_id output_file is_ready, calls, sleeps) =>
        match already_downloaded env.lookup2Ok db application_id report_id
            none (some api_render_id) with
        | some c => ⟨Outcome.cached c.file_name api_render_id, db, fs, calls, sleeps, 0⟩
        | none =>
          if is_ready then
            match save_file_locally env.persist env.sf env.storagePath fs
                (env.baseDomain ++ output_file)
                (renderFileName env.sf application_id report_id api_render_id
                  env.nowStamp)
                (some (stripBearer (pyStr authToken))) with
            | (none, fs1) => ⟨Outcome.saveFailed, db, fs1, calls, sleeps, 1⟩
            | (some file_path, fs1) =>
              ⟨Outcome.saved (renderFileName env.sf application_id report_id
                  api_render_id env.nowStamp),
               save_to_db env.saveOk db application_id report_id
                 request_render_id api_render_id
                 (renderFileName env.sf application_id report_id api_render_id
                   env.nowStamp) file_path,
               fs1, calls, sleeps, 1⟩
          else ⟨Outcome.notReady, db, fs, calls, sleeps, 0⟩

/-- Model of the `/get_report` route (app.py lines 266-349): `init_db` (whose
observable effect on the model state is `cleanup_invalid_records`) followed
by the coordinator body. -/
def get_report (env : CoordEnv) (db : List RenderRecord) (fs : FS)
    (application_id report_id request_render_id : String)
    (authToken : Option String) : RunResult :=
  get_report_core env (cleanup_invalid_records db) fs application_id report_id
    request_render_id authToken

/-! ### Basic lemmas about the ledger model -/

/-- A conflict-key match implies a canonical-id (api) match. -/
theorem matchesApi_of_conflictKey {x : RenderRecord}
    {application_id report_id api_render_id file_name : String}
    (h : conflictKey x = (application_id, report_id, api_render_id, file_name)) :
    matchesApi application_id report_id api_render_id x = true := by
  unfold conflictKey at h
  have h1 : x.application_id = application_id := congrArg Prod.fst h
  have h2 : x.report_id = report_id := congrArg (fun p => p.2.1) h
  have h3 : x.api_render_id = api_render_id := congrArg (fun p => p.2.2.1) h
  simp [matchesApi, h1, h2, h3]

/-- If no row matches the canonical id, no row matches the upsert's
conflict key either. -/
theorem find?_conflictKey_eq_none {db : List RenderRecord}
    {application_id report_id api_render_id : String} (file_name : String)
    (h : db.find? (matchesApi application_id report_id api_render_id) = none) :
    db.find? (fun x =>
      conflictKey x == (application_id, report_id, api_render_id, file_name)) = none := by
  rw [List.find?_eq_none] at h ⊢
  intro x hx hbeq
  exact h x hx (matchesApi_of_conflictKey (beq_iff_eq.mp hbeq))

/-- On a canonical-id miss, `save_to_db` is a plain INSERT at the head. -/
theorem save_to_db_insert {db : List RenderRecord}
    {application_id report_id api_render_id : String}
    (request_render_id file_name file_path : String)
    (h : db.find? (matchesApi application_id report_id api_render_id) = none) :
    save_to_db true db application_id report_id request_render_id api_render_id
        file_name file_path =
      ⟨application_id, report_id, request_render_id, api_render_id,
        file_name, file_path⟩ :: db := by
  simp [save_to_db, find?_conflictKey_eq_none file_name h]

/-- Inserting a row whose canonical id misses preserves the unique-index
invariant. -/
theorem keysNodup_insert {db : List RenderRecord}
    {application_id report_id api_render_id : String}
    (request_render_id file_name file_path : String)
    (hk : KeysNodup db)
    (h : db.find? (matchesApi application_id report_id api_render_id) = none) :
    KeysNodup ((⟨application_id, report_id, request_render_id, api_render_id,
      file_name, file_path⟩ : RenderRecord) :: db) := by
  unfold KeysNodup at hk ⊢
  rw [List.map_cons, List.nodup_cons]
  refine ⟨fun hmem => ?_, hk⟩
  obtain ⟨x, hx, hkx⟩ := List.mem_map.mp hmem
  rw [List.find?_eq_none] at h
  exact h x hx (matchesApi_of_conflictKey hkx)

/-- On a table satisfying the unique-index invariant, the cleanup dedup is
the identity. -/
theorem dedupByConflictKey_eq_self {db : List RenderRecord} (hk : KeysNodup db) :
    dedupByConflictKey db = db := by
  induction db with
  | nil => rfl
  | cons r rs ih =>
    unfold KeysNodup at hk
    rw [List.map_cons, List.nodup_cons] at hk
    have hfilter : rs.filter (fun x => !(conflictKey x == conflictKey r)) = rs := by
      rw [List.filter_eq_self]
      intro x hx
      simp only [Bool.not_eq_true', beq_eq_false_iff_ne, ne_eq]
      intro hkey
      exact hk.1 (hkey ▸ List.mem_map_of_mem conflictKey hx)
    rw [dedupByConflictKey, ih hk.2, hfilter]

/-- On a table satisfying the unique-index invariant, `cleanup_invalid_records`
is the identity. -/
theorem cleanup_eq_self {db : List RenderRecord} (hk : KeysNodup db) :
    cleanup_invalid_records db = db :=
  dedupByConflictKey_eq_self hk

/-! ### Lemmas about `already_downloaded` -/

/-- The request-render-id lookup, DB healthy, expressed via `find?`. -/
theorem already_downloaded_req (db : List RenderRecord)
    (application_id report_id request_render_id : String) :
    already_downloaded true db application_id report_id (some request_render_id) none =
      (db.find? (matchesReq application_id report_id request_render_id)).map
        (fun r => ⟨r.file_name, r.file_path⟩) := by
  simp [already_downloaded, isTruthy, pyStr]

/-- The canonical-id lookup, DB healthy, on a truthy api id, via `find?`. -/
theorem already_downloaded_api (db : List RenderRecord)
    (application_id report_id api_render_id : String) (hne : api_render_id ≠ "") :
    already_downloaded true db application_id report_id none (some api_render_id) =
      (db.find? (matchesApi application_id report_id api_render_id)).map
        (fun r => ⟨r.file_name, r.file_path⟩) := by
  simp [already_downloaded, isTruthy, truthyStr, pyStr, hne]

/-- A request-render-id lookup misses (whether or not the DB errors) when no
row carries that request id. -/
theorem already_downloaded_req_none (dbOk : Bool) (db : List RenderRecord)
    (application_id report_id request_render_id : String)
    (h : db.find? (matchesReq application_id report_id request_render_id) = none) :
    already_downloaded dbOk db application_id report_id
      (some request_render_id) none = none := by
  cases dbOk with
  | false => simp [already_downloaded]
  | true => rw [already_downloaded_req, h]; rfl

/-- A canonical-id lookup misses (whether or not the DB errors) when no row
carries that canonical id. -/
theorem already_downloaded_api_none (dbOk : Bool) (db : List RenderRecord)
    (application_id report_id api_render_id : String) (hne : api_render_id ≠ "")
    (h : db.find? (matchesApi application_id report_id api_render_id) = none) :
    already_downloaded dbOk db application_id report_id
      none (some api_render_id) = none := by
  cases dbOk with
  | false => simp [already_downloaded]
  | true => rw [already_downloaded_api db _ _ _ hne, h]; rfl

/-- Inversion: a healthy canonical-id miss means no row carries that id. -/
theorem find?_api_none_of_lookup_none {db : List RenderRecord}
    {application_id report_id api_render_id : String} (hne : api_render_id ≠ "")
    (h : already_downloaded true db application_id report_id
      none (some api_render_id) = none) :
    db.find? (matchesApi application_id report_id api_render_id) = none := by
  rw [already_downloaded_api db _ _ _ hne, Option.map_eq_none'] at h
  exact h

/-! ### Lemmas about the status retry loop -/

/-- If every status call answers 404, the loop makes exactly `n` calls and
`n` sleeps and gives up with "Render not found after retries". -/
theorem statusLoop_all_404 (resp : Nat → StatusHttp)
    (h : ∀ k, (resp k).code = 404) :
    ∀ s n, statusLoop resp s n = (LoopResult.notFoundAfterRetries, n, n) := by
  intro s n
  induction n generalizing s with
  | zero => rfl
  | succ n ih => simp [statusLoop, h s, ih (s + 1)]

/-- A non-200, non-404 status on the current attempt stops the loop at once,
echoing the code, after a single call and no sleep. -/
theorem statusLoop_httpError (resp : Nat → StatusHttp) (s n c : Nat)
    (hc : (resp s).code = c) (h404 : c ≠ 404) (h200 : c ≠ 200) :
    statusLoop resp s (n + 1) = (LoopResult.httpError c, 1, 0) := by
  simp [statusLoop, hc, h404, h200]

/-- A 200 with a well-formed body stops the loop at once with the parsed
values, after a single call and no sleep. -/
theorem statusLoop_parsed (resp : Nat → StatusHttp) (s n : Nat) (b : StatusBody)
    (hr : resp s = ⟨200, some b⟩) (hid : isTruthy b.id = true)
    (hout : isTruthy b.outputFile = true) :
    statusLoop resp s (n + 1) =
      (LoopResult.parsed (b.id.getD "") (b.outputFile.getD "") b.isReady, 1, 0) := by
  simp [statusLoop, hr, hid, hout]

/-- The loop always makes at least one status call when given any attempts. -/
theorem statusLoop_calls_pos (resp : Nat → StatusHttp) (s n : Nat) :
    1 ≤ (statusLoop resp s (n + 1)).2.1 := by
  rw [statusLoop]
  split
  · simp
  · split
    · simp
    · split
      · simp
      · split <;> simp

/-- A parsed loop outcome always carries a truthy (non-empty) canonical id. -/
theorem statusLoop_parsed_id_ne (resp : Nat → StatusHttp)
    (api_render_id output_file : String) (is_ready : Bool) :
    ∀ s n, (statusLoop resp s n).1 =
      LoopResult.parsed api_render_id output_file is_ready →
    api_render_id ≠ "" := by
  intro s n
  induction n generalizing s with
  | zero => intro h; simp [statusLoop] at h
  | succ n ih =>
    intro h
    simp only [statusLoop] at h
    split at h
    · exact ih (s + 1) h
    · split at h
      · simp at h
      · split at h
        · simp at h
        · split at h
          · simp at h
          · rename_i b heqb hw
            simp only at h
            obtain ⟨h1, -, -⟩ := LoopResult.parsed.inj h
            simp only [Bool.or_eq_true, Bool.not_eq_true'] at hw
            push_neg at hw
            match hbid : b.id with
            | none => rw [hbid] at hw; exact absurd rfl hw.1
            | some v =>
              rw [hbid] at hw
              simp only [isTruthy, truthyStr, bne_iff_ne, ne_eq] at hw
              rw [← h1, hbid]
              simpa using hw.1

/-! ### Lemmas about the artifact store model -/

/-- The containment check of app.py line 240 always passes for a path built
by joining the storage root with a safe file name. -/
theorem storagePath_check (s t u : String) :
    s.data.isPrefixOf (s ++ t ++ u).data = true := by
  rw [List.isPrefixOf_iff_prefix, String.data_append, String.data_append,
    List.append_assoc]
  exact List.prefix_append _ _

/-- The temp path differs from the final path. -/
theorem append_tmp_ne (s : String) : s ++ ".tmp" ≠ s := by
  intro h
  have h4 : (".tmp" : String).data.length = 4 := rfl
  have h2 := congrArg (fun x : String => x.data.length) h
  simp only [String.data_append, List.length_append, h4] at h2
  omega

/-- A path just written exists. -/
theorem FS.hasPath_write_self (fs : FS) (p : String) (c : List Nat) :
    (FS.write fs p c).hasPath p = true := by
  simp [FS.write, FS.hasPath]

/-- Writing one path does not change the existence of another. -/
theorem FS.hasPath_write_of_ne (fs : FS) (p q : String) (c : List Nat)
    (h : q ≠ p) : (FS.write fs q c).hasPath p = fs.hasPath p := by
  unfold FS.write FS.hasPath
  rw [List.any_cons, show ((q, c).1 == p) = false from beq_eq_false_iff_ne.mpr h,
    Bool.false_or]
  induction fs.files with
  | nil => rfl
  | cons e l ih =>
    rw [List.filter_cons]
    by_cases he : e.1 = q
    · rw [if_neg (by simp [he]), List.any_cons,
        show (e.1 == p) = false by simp [he, h], Bool.false_or, ih]
    · rw [if_pos (by simp [he]), List.any_cons, List.any_cons, ih]

/-- If the artifact fetch itself fails (network error or non-200 on the
source URL), `save_file_locally` returns `None` and leaves the filesystem
untouched. -/
theorem save_file_locally_fetchFail (env : PersistEnv) (sf : String → String)
    (storagePath : String) (fs : FS) (file_url file_name : String)
    (tok : Option String)
    (hg : env.gdriveConfigured = false)
    (ht : isTruthy (orToken tok env.defaultToken) = true)
    (hf : env.fetchOk = false) :
    save_file_locally env sf storagePath fs file_url file_name tok = (none, fs) := by
  simp [save_file_locally, hg, ht, hf, storagePath_check]

/-- If the full temp write succeeds but the move onto the final path fails,
`save_file_locally` returns `None` and the temp file stays on disk. -/
theorem save_file_locally_moveFail (env : PersistEnv) (sf : String → String)
    (storagePath : String) (fs : FS) (file_url file_name : String)
    (tok : Option String)
    (hg : env.gdriveConfigured = false)
    (ht : isTruthy (orToken tok env.defaultToken) = true)
    (hf : env.fetchOk = true) (hw : env.writeFailAfter = none)
    (hm : env.moveFails = true) :
    save_file_locally env sf storagePath fs file_url file_name tok =
      (none, FS.write fs (storagePath ++ "/" ++ sf file_name ++ ".tmp")
        env.chunks.flatten) := by
  simp [save_file_locally, hg, ht, hf, hw, hm, storagePath_check]

/-! ### Concrete fixtures for witnesses (the concrete scenario of the spec:
application 6, report 25, render 118545) -/

/-- A persist environment in which everything succeeds locally (no Google
Drive configured, fetch works, the write and move succeed). -/
def okPersist : PersistEnv :=
  ⟨false, none, some "envtok", true, [[1, 2, 3]], none, false⟩

/-- A fully healthy coordinator environment whose status endpoint always
answers ready with canonical id 118545. -/
def okEnv : CoordEnv where
  lookup1Ok := true
  lookup2Ok := true
  saveOk := true
  statusResp := fun _ => ⟨200, some ⟨some "118545", some "/files/118545.csv", true⟩⟩
  persist := okPersist
  sf := fun s => s
  nowStamp := "20250101_000000"
  baseDomain := "https://omantracking2.com"
  storagePath := "/opt/render/reports"

/-- A pre-existing ledger row keyed by canonical id 118545 but carrying a
different request render id. -/
def oldRec : RenderRecord :=
  ⟨"6", "25", "999", "118545", "old.csv", "/opt/render/reports/old.csv"⟩

/-! ### C2: canonical-id precedence -/

/-- C2: if the ledger holds a row keyed by canonical id `C` for
`(application_id, report_id)` but no row for the request render id, and the
status endpoint maps the request id to `C` with `isReady = true`, the
coordinator answers from the existing row for `C`: it returns that row's
`file_name`, performs no artifact fetch (`persistCalls = 0`) and writes
nothing to the ledger (the ledger and filesystem are unchanged; exactly one
status call is made). -/
theorem canonical_id_precedence
    (env : CoordEnv) (db : List RenderRecord) (fs : FS)
    (application_id report_id request_render_id : String) (t : Option String)
    (C out : String) (rec : RenderRecord)
    (ha : application_id ≠ "") (hb : report_id ≠ "") (hq : request_render_id ≠ "")
    (ht : isTruthy t = true) (hk : KeysNodup db) (hC : C ≠ "") 
    (hmiss : db.find? (matchesReq application_id report_id request_render_id) = none)
    (hresp : env.statusResp 0 = ⟨200, some ⟨some C, some out, true⟩⟩)
    (hout : out ≠ "") (h2ok : env.lookup2Ok = true)
    (hhit : db.find? (matchesApi application_id report_id C) = some rec) :
    get_report env db fs application_id report_id request_render_id t =
      ⟨Outcome.cached rec.file_name C, db, fs, 1, 0, 0⟩ := by
  have hloop : statusLoop env.statusResp 0 3 = (LoopResult.parsed C out true, 1, 0) := by
    have := statusLoop_parsed env.statusResp 0 2 ⟨some C, some out, true⟩ hresp
      (by simpa [isTruthy, truthyStr] using hC)
      (by simpa [isTruthy, truthyStr] using hout)
    simpa using this
  have hA1 : already_downloaded env.lookup1Ok db application_id report_id
      (some request_render_id) none = none :=
    already_downloaded_req_none _ _ _ _ _ hmiss
  have hA2 : already_downloaded env.lookup2Ok db application_id report_id
      none (some C) = some ⟨rec.file_name, rec.file_path⟩ := by
    rw [h2ok, already_downloaded_api db _ _ _ hC, hhit]; rfl
  rw [get_report, cleanup_eq_self hk, get_report_core]
  simp [hA1, hA2, hloop, ha, hb, hq, ht]

/-- Witness for C2 at the concrete scenario: ledger `[oldRec]` (canonical
id 118545 under request id 999), request with render id 118545. -/
theorem canonical_id_precedence_witness :
    get_report okEnv [oldRec] ⟨[]⟩ "6" "25" "118545" (some "tok") =
      ⟨Outcome.cached "old.csv" "118545", [oldRec], ⟨[]⟩, 1, 0, 0⟩ :=
  canonical_id_precedence okEnv [oldRec] ⟨[]⟩ "6" "25" "118545" (some "tok")
    "118545" "/files/118545.csv" oldRec
    (by decide) (by decide) (by decide) (by decide) (by decide) (by decide)
    (by decide) rfl (by decide) rfl (by decide)

/-! ### C3: transient-retry bound -/

/-- C3: if the status endpoint answers the transient "not found" (HTTP 404)
on every attempt, the coordinator makes exactly 3 status calls with a fixed
3-second delay after each (3 sleeps), and answers with the dedicated
"Render not found after retries" outcome — distinct from the
`Outcome.fetchError` hard-failure outcome — leaving ledger and filesystem
untouched and fetching nothing. -/
theorem transient_retry_bound
    (env : CoordEnv) (db : List RenderRecord) (fs : FS)
    (application_id report_id request_render_id : String) (t : Option String)
    (ha : application_id ≠ "") (hb : report_id ≠ "") (hq : request_render_id ≠ "")
    (ht : isTruthy t = true) (hk : KeysNodup db)
    (hmiss : db.find? (matchesReq application_id report_id request_render_id) = none)
    (hresp : ∀ k, (env.statusResp k).code = 404) :
    get_report env db fs application_id report_id request_render_id t =
      ⟨Outcome.notFoundAfterRetries, db, fs, 3, 3, 0⟩ := by
  have hloop := statusLoop_all_404 env.statusResp hresp 0 3
  have hA1 : already_downloaded env.lookup1Ok db application_id report_id
      (some request_render_id) none = none :=
    already_downloaded_req_none _ _ _ _ _ hmiss
  rw [get_report, cleanup_eq_self hk, get_report_core]
  simp [hA1, hloop, ha, hb, hq, ht]

/-- An environment whose status endpoint answers 404 on every call. -/
def env404 : CoordEnv := { okEnv with statusResp := fun _ => ⟨404, none⟩ }

/-- Witness for C3: on an empty ledger with an always-404 status endpoint,
the run makes exactly 3 calls and 3 sleeps and reports not-found-after-retries. -/
theorem transient_retry_bound_witness :
    get_report env404 [] ⟨[]⟩ "6" "25" "118545" (some "tok") =
      ⟨Outcome.notFoundAfterRetries, [], ⟨[]⟩, 3, 3, 0⟩ :=
  transient_retry_bound env404 [] ⟨[]⟩ "6" "25" "118545" (some "tok")
    (by decide) (by decide) (by decide) (by decide) (by decide) (by decide)
    (fun _ => rfl)

/-! ### C6: not-ready stability -/

/-- C6: on a well-formed status body with `isReady = false` (and no ledger
row under either the request id or the canonical id), the run writes no
ledger record, returns the not-ready outcome, and an identical second call
(run on the state the first left behind) again returns not-ready. -/
theorem not_ready_stability
    (env : CoordEnv) (db : List RenderRecord) (fs : FS)
    (application_id report_id request_render_id : String) (t : Option String)
    (C out : String)
    (ha : application_id ≠ "") (hb : report_id ≠ "") (hq : request_render_id ≠ "")
    (ht : isTruthy t = true) (hk : KeysNodup db) (hC : C ≠ "") (hout : out ≠ "")
    (hmiss : db.find? (matchesReq application_id report_id request_render_id) = none)
    (hresp : env.statusResp 0 = ⟨200, some ⟨some C, some out, false⟩⟩)
    (hmiss2 : db.find? (matchesApi application_id report_id C) = none) :
    get_report env db fs application_id report_id request_render_id t =
      ⟨Outcome.notReady, db, fs, 1, 0, 0⟩ ∧
    get_report env
        (get_report env db fs application_id report_id request_render_id t).db
        (get_report env db fs application_id report_id request_render_id t).fs
        application_id report_id request_render_id t =
      ⟨Outcome.notReady, db, fs, 1, 0, 0⟩ := by
  have h1 : get_report env db fs application_id report_id request_render_id t =
      ⟨Outcome.notReady, db, fs, 1, 0, 0⟩ := by
    have hloop : statusLoop env.statusResp 0 3 =
        (LoopResult.parsed C out false, 1, 0) := by
      have := statusLoop_parsed env.statusResp 0 2 ⟨some C, some out, false⟩ hresp
        (by simpa [isTruthy, truthyStr] using hC)
        (by simpa [isTruthy, truthyStr] using hout)
      simpa using this
    have hA1 : already_downloaded env.lookup1Ok db application_id report_id
        (some request_render_id) none = none :=
      already_downloaded_req_none _ _ _ _ _ hmiss
    have hA2 : already_downloaded env.lookup2Ok db application_id report_id
        none (some C) = none :=
      already_downloaded_api_none _ _ _ _ _ hC hmiss2
    rw [get_report, cleanup_eq_self hk, get_report_core]
    simp [hA1, hA2, hloop, ha, hb, hq, ht]
  exact ⟨h1, by rw [h1]; exact h1⟩

/-- An environment whose status endpoint always answers "not ready". -/
def envNotReady : CoordEnv :=
  { okEnv with statusResp :=
      fun _ => ⟨200, some ⟨some "118545", some "/files/118545.csv", false⟩⟩ }

/-- Witness for C6 at the concrete scenario on an empty ledger. -/
theorem not_ready_stability_witness :
    get_report envNotReady [] ⟨[]⟩ "6" "25" "118545" (some "tok") =
      ⟨Outcome.notReady, [], ⟨[]⟩, 1, 0, 0⟩ ∧
    get_report envNotReady
        (get_report envNotReady [] ⟨[]⟩ "6" "25" "118545" (some "tok")).db
        (get_report envNotReady [] ⟨[]⟩ "6" "25" "118545" (some "tok")).fs
        "6" "25" "118545" (some "tok") =
      ⟨Outcome.notReady, [], ⟨[]⟩, 1, 0, 0⟩ :=
  not_ready_stability envNotReady [] ⟨[]⟩ "6" "25" "118545" (some "tok")
    "118545" "/files/118545.csv"
    (by decide) (by decide) (by decide) (by decide) (by decide) (by decide)
    (by decide) (by decide) rfl (by decide)

/-! ### C4: upstream status-code classification -/

/-- An environment whose status endpoint answers 500 on every call. -/
def env500 : CoordEnv := { okEnv with statusResp := fun _ => ⟨500, none⟩ }

/-- Counterexample to C4 as claimed: with a 500 answer on every attempt the
coordinator does NOT retry — it stops after exactly one status call and
surfaces the hard "Error fetching render 500" outcome immediately on the
first attempt (the claim requires 5xx to be retried like 404 and not to be
an immediate hard failure). -/
theorem status_5xx_retried_counterexample :
    get_report env500 [] ⟨[]⟩ "6" "25" "118545" (some "tok") =
      ⟨Outcome.fetchError 500, [], ⟨[]⟩, 1, 0, 0⟩ ∧
    (get_report env500 [] ⟨[]⟩ "6" "25" "118545" (some "tok")).statusCalls ≠ 3 := by
  exact ⟨rfl, by decide⟩

/-- C4 amended: only 404 is treated as transient and retried; every other
non-200 status — 5xx, 401, 403, and any other 4xx alike — stops the run on
its first occurrence after exactly one status call (no retry, no sleep),
surfacing an error that echoes the upstream status code, with no ledger or
filesystem change and no artifact fetch. -/
theorem status_code_no_retry
    (env : CoordEnv) (db : List RenderRecord) (fs : FS)
    (application_id report_id request_render_id : String) (t : Option String)
    (c : Nat)
    (ha : application_id ≠ "") (hb : report_id ≠ "") (hq : request_render_id ≠ "")
    (ht : isTruthy t = true) (hk : KeysNodup db)
    (hmiss : db.find? (matchesReq application_id report_id request_render_id) = none)
    (hc : (env.statusResp 0).code = c) (h404 : c ≠ 404) (h200 : c ≠ 200) :
    get_report env db fs application_id report_id request_render_id t =
      ⟨Outcome.fetchError c, db, fs, 1, 0, 0⟩ := by
  have hloop := statusLoop_httpError env.statusResp 0 2 c hc h404 h200
  have hA1 : already_downloaded env.lookup1Ok db application_id report_id
      (some request_render_id) none = none :=
    already_downloaded_req_none _ _ _ _ _ hmiss
  rw [get_report, cleanup_eq_self hk, get_report_core]
  simp [hA1, hloop, ha, hb, hq, ht]

/-- Witness for the amended C4: a 500 answer stops the run at once. -/
theorem status_code_no_retry_witness :
    get_report env500 [] ⟨[]⟩ "6" "25" "118545" (some "tok") =
      ⟨Outcome.fetchError 500, [], ⟨[]⟩, 1, 0, 0⟩ :=
  status_code_no_retry env500 [] ⟨[]⟩ "6" "25" "118545" (some "tok") 500
    (by decide) (by decide) (by decide) (by decide) (by decide) (by decide)
    rfl (by decide) (by decide)

/-! ### C5: no ledger write on persist failure -/

/-- C5: when the run reaches FETCH_AND_PERSIST and the persist fails
(here: the artifact fetch inside `save_file_locally` fails, so it returns
`None`), the coordinator surfaces the failure ("Failed to save file", 500)
and the ledger is left unchanged — no record with the new identity is
written. -/
theorem no_ledger_write_on_persist_failure
    (env : CoordEnv) (db : List RenderRecord) (fs : FS)
    (application_id report_id request_render_id : String) (t : Option String)
    (C out : String)
    (ha : application_id ≠ "") (hb : report_id ≠ "") (hq : request_render_id ≠ "")
    (ht : isTruthy t = true) (hk : KeysNodup db) (hC : C ≠ "") (hout : out ≠ "")
    (hmiss : db.find? (matchesReq application_id report_id request_render_id) = none)
    (hresp : env.statusResp 0 = ⟨200, some ⟨some C, some out, true⟩⟩)
    (hmiss2 : db.find? (matchesApi application_id report_id C) = none)
    (hg : env.persist.gdriveConfigured = false)
    (htok : isTruthy (orToken (some (stripBearer (pyStr t)))
      env.persist.defaultToken) = true)
    (hf : env.persist.fetchOk = false) :
    get_report env db fs application_id report_id request_render_id t =
      ⟨Outcome.saveFailed, db, fs, 1, 0, 1⟩ := by
  have hloop : statusLoop env.statusResp 0 3 =
      (LoopResult.parsed C out true, 1, 0) := by
    have := statusLoop_parsed env.statusResp 0 2 ⟨some C, some out, true⟩ hresp
      (by simpa [isTruthy, truthyStr] using hC)
      (by simpa [isTruthy, truthyStr] using hout)
    simpa using this
  have hA1 : already_downloaded env.lookup1Ok db application_id report_id
      (some request_render_id) none = none :=
    already_downloaded_req_none _ _ _ _ _ hmiss
  have hA2 : already_downloaded env.lookup2Ok db application_id report_id
      none (some C) = none :=
    already_downloaded_api_none _ _ _ _ _ hC hmiss2
  have hsv := save_file_locally_fetchFail env.persist env.sf env.storagePath fs
    (env.baseDomain ++ out)
    (renderFileName env.sf application_id report_id C env.nowStamp)
    (some (stripBearer (pyStr t))) hg htok hf
  rw [get_report, cleanup_eq_self hk, get_report_core]
  simp [hA1, hA2, hloop, hsv, ha, hb, hq, ht]

/-- A persist environment whose artifact fetch fails. -/
def fetchFailPersist : PersistEnv := ⟨false, none, some "envtok", false, [], none, false⟩

/-- An otherwise healthy environment whose artifact fetch fails. -/
def envFetchFail : CoordEnv := { okEnv with persist := fetchFailPersist }

/-- Witness for C5: ready status, fetch fails, ledger stays empty. -/
theorem no_ledger_write_on_persist_failure_witness :
    get_report envFetchFail [] ⟨[]⟩ "6" "25" "118545" (some "tok") =
      ⟨Outcome.saveFailed, [], ⟨[]⟩, 1, 0, 1⟩ :=
  no_ledger_write_on_persist_failure envFetchFail [] ⟨[]⟩ "6" "25" "118545"
    (some "tok") "118545" "/files/118545.csv"
    (by decide) (by decide) (by decide) (by decide) (by decide) (by decide)
    (by decide) (by decide) rfl (by decide) rfl (by decide) rfl

/-! ### C7: atomic local write -/

/-- A persist environment in which the fetch and temp write succeed but the
move onto the final path fails. -/
def movePersist : PersistEnv := ⟨false, none, some "envtok", true, [[1, 2, 3]], none, true⟩

/-- An otherwise healthy environment whose `shutil.move` fails. -/
def envMoveFail : CoordEnv := { okEnv with persist := movePersist }

/-- Counterexample to C7 as claimed: in a run that fails after the temp-file
write and before the rename (the move raises), `save_file_locally` returns
`None` and no file is visible at the final artifact path, but the temporary
file IS left behind on disk — there is no scoped acquisition with guaranteed
cleanup, contradicting the claim's "no temporary file is left behind". -/
theorem atomic_write_counterexample :
    (save_file_locally movePersist (fun s => s) "/opt/render/reports" ⟨[]⟩
        "https://omantracking2.com/files/118545.csv" "x.csv" (some "tok")).1
      = none ∧
    ((save_file_locally movePersist (fun s => s) "/opt/render/reports" ⟨[]⟩
        "https://omantracking2.com/files/118545.csv" "x.csv" (some "tok")).2).hasPath
        "/opt/render/reports/x.csv" = false ∧
    ((save_file_locally movePersist (fun s => s) "/opt/render/reports" ⟨[]⟩
        "https://omantracking2.com/files/118545.csv" "x.csv" (some "tok")).2).hasPath
        "/opt/render/reports/x.csv.tmp" = true := by
  decide

/-- C7 amended: the local backend writes the fetched bytes to
`final_path + ".tmp"` and renames onto the final path only after the full
write succeeds; in a run that fails between the temp write and the rename,
no file is visible at the final artifact path and no ledger record is
written — but the temporary file is not cleaned up and remains on disk. -/
theorem atomic_write_no_cleanup
    (env : CoordEnv) (db : List RenderRecord) (fs : FS)
    (application_id report_id request_render_id : String) (t : Option String)
    (C out : String)
    (ha : application_id ≠ "") (hb : report_id ≠ "") (hq : request_render_id ≠ "")
    (ht : isTruthy t = true) (hk : KeysNodup db) (hC : C ≠ "") (hout : out ≠ "")
    (hmiss : db.find? (matchesReq application_id report_id request_render_id) = none)
    (hresp : env.statusResp 0 = ⟨200, some ⟨some C, some out, true⟩⟩)
    (hmiss2 : db.find? (matchesApi application_id report_id C) = none)
    (hg : env.persist.gdriveConfigured = false)
    (htok : isTruthy (orToken (some (stripBearer (pyStr t)))
      env.persist.defaultToken) = true)
    (hf : env.persist.fetchOk = true)
    (hwf : env.persist.writeFailAfter = none)
    (hm : env.persist.moveFails = true)
    (hfs : fs.hasPath (env.storagePath ++ "/" ++
      env.sf (renderFileName env.sf application_id report_id C env.nowStamp)) = false) :
    get_report env db fs application_id report_id request_render_id t =
      ⟨Outcome.saveFailed, db,
        FS.write fs (env.storagePath ++ "/" ++
          env.sf (renderFileName env.sf application_id report_id C env.nowStamp)
          ++ ".tmp") env.persist.chunks.flatten,
        1, 0, 1⟩ ∧
    (get_report env db fs application_id report_id request_render_id t).fs.hasPath
      (env.storagePath ++ "/" ++
        env.sf (renderFileName env.sf application_id report_id C env.nowStamp))
      = false ∧
    (get_report env db fs application_id report_id request_render_id t).fs.hasPath
      (env.storagePath ++ "/" ++
        env.sf (renderFileName env.sf application_id report_id C env.nowStamp)
        ++ ".tmp") = true := by
  have hloop : statusLoop env.statusResp 0 3 =
      (LoopResult.parsed C out true, 1, 0) := by
    have := statusLoop_parsed env.statusResp 0 2 ⟨some C, some out, true⟩ hresp
      (by simpa [isTruthy, truthyStr] using hC)
      (by simpa [isTruthy, truthyStr] using hout)
    simpa using this
  have hA1 : already_downloaded env.lookup1Ok db application_id report_id
      (some request_render_id) none = none :=
    already_downloaded_req_none _ _ _ _ _ hmiss
  have hA2 : already_downloaded env.lookup2Ok db application_id report_id
      none (some C) = none :=
    already_downloaded_api_none _ _ _ _ _ hC hmiss2
  have hsv := save_file_locally_moveFail env.persist env.sf env.storagePath fs
    (env.baseDomain ++ out)
    (renderFileName env.sf application_id report_id C env.nowStamp)
    (some (stripBearer (pyStr t))) hg htok hf hwf hm
  have h1 : get_report env db fs application_id report_id request_render_id t =
      ⟨Outcome.saveFailed, db,
        FS.write fs (env.storagePath ++ "/" ++
          env.sf (renderFileName env.sf application_id report_id C env.nowStamp)
          ++ ".tmp") env.persist.chunks.flatten,
        1, 0, 1⟩ := by
    rw [get_report, cleanup_eq_self hk, get_report_core]
    simp [hA1, hA2, hloop, hsv, ha, hb, hq, ht]
  refine ⟨h1, ?_, ?_⟩
  · rw [h1]
    exact (FS.hasPath_write_of_ne fs _ _ _ (append_tmp_ne _)).trans hfs
  · rw [h1]
    exact FS.hasPath_write_self fs _ _

/-- Witness for the amended C7 at the concrete scenario. -/
theorem atomic_write_no_cleanup_witness :
    get_report envMoveFail [] ⟨[]⟩ "6" "25" "118545" (some "tok") =
      ⟨Outcome.saveFailed, [],
        FS.write ⟨[]⟩ "/opt/render/reports/6-25-118545-20250101_000000.csv.tmp"
          [1, 2, 3],
        1, 0, 1⟩ ∧
    (get_report envMoveFail [] ⟨[]⟩ "6" "25" "118545" (some "tok")).fs.hasPath
      "/opt/render/reports/6-25-118545-20250101_000000.csv" = false ∧
    (get_report envMoveFail [] ⟨[]⟩ "6" "25" "118545" (some "tok")).fs.hasPath
      "/opt/render/reports/6-25-118545-20250101_000000.csv.tmp" = true :=
  atomic_write_no_cleanup envMoveFail [] ⟨[]⟩ "6" "25" "118545" (some "tok")
    "118545" "/files/118545.csv"
    (by decide) (by decide) (by decide) (by decide) (by decide) (by decide)
    (by decide) (by decide) rfl (by decide) rfl (by decide) rfl rfl rfl
    (by decide)

/-! ### C9: fetch errors vs persist errors -/

/-- Counterexample to C9 as claimed: a run whose artifact fetch fails and a
run whose write/move stage fails produce the IDENTICAL caller-visible
outcome ("Failed to save file", HTTP 500) — nothing like a distinct
`ArtifactFetchFailed` — and neither run performs an additional status
re-check (both stay at exactly one status call). -/
theorem fetch_persist_collapse_counterexample :
    (get_report envFetchFail [] ⟨[]⟩ "6" "25" "118545" (some "tok")).outcome
      = Outcome.saveFailed ∧
    (get_report envMoveFail [] ⟨[]⟩ "6" "25" "118545" (some "tok")).outcome
      = Outcome.saveFailed ∧
    (get_report envFetchFail [] ⟨[]⟩ "6" "25" "118545" (some "tok")).outcome
      = (get_report envMoveFail [] ⟨[]⟩ "6" "25" "118545" (some "tok")).outcome ∧
    (get_report envFetchFail [] ⟨[]⟩ "6" "25" "118545" (some "tok")).statusCalls
      = 1 ∧
    (get_report envMoveFail [] ⟨[]⟩ "6" "25" "118545" (some "tok")).statusCalls
      = 1 := by
  decide

/-- C9 amended: the blanket exception handler of `save_file_locally`
collapses both failure stages — a failed fetch of the declared-ready
artifact and a failed write/move — into the single undifferentiated
"Failed to save file" outcome, and in neither case does the coordinator
perform an additional status re-check (exactly one status call either way). -/
theorem fetch_persist_collapse
    (envF envP : CoordEnv) (db : List RenderRecord) (fs : FS)
    (application_id report_id request_render_id : String) (t : Option String)
    (C out : String)
    (ha : application_id ≠ "") (hb : report_id ≠ "") (hq : request_render_id ≠ "")
    (ht : isTruthy t = true) (hk : KeysNodup db) (hC : C ≠ "") (hout : out ≠ "")
    (hmiss : db.find? (matchesReq application_id report_id request_render_id) = none)
    (hmiss2 : db.find? (matchesApi application_id report_id C) = none)
    (hrespF : envF.statusResp 0 = ⟨200, some ⟨some C, some out, true⟩⟩)
    (hrespP : envP.statusResp 0 = ⟨200, some ⟨some C, some out, true⟩⟩)
    (hgF : envF.persist.gdriveConfigured = false)
    (htokF : isTruthy (orToken (some (stripBearer (pyStr t)))
      envF.persist.defaultToken) = true)
    (hfF : envF.persist.fetchOk = false)
    (hgP : envP.persist.gdriveConfigured = false)
    (htokP : isTruthy (orToken (some (stripBearer (pyStr t)))
      envP.persist.defaultToken) = true)
    (hfP : envP.persist.fetchOk = true)
    (hwfP : envP.persist.writeFailAfter = none)
    (hmP : envP.persist.moveFails = true) :
    (get_report envF db fs application_id report_id request_render_id t).outcome
      = Outcome.saveFailed ∧
    (get_report envP db fs application_id report_id request_render_id t).outcome
      = Outcome.saveFailed ∧
    (get_report envF db fs application_id report_id request_render_id t).outcome
      = (get_report envP db fs application_id report_id request_render_id t).outcome ∧
    (get_report envF db fs application_id report_id request_render_id t).statusCalls
      = 1 ∧
    (get_report envP db fs application_id report_id request_render_id t).statusCalls
      = 1 := by
  have hF : get_report envF db fs application_id report_id request_render_id t =
      ⟨Outcome.saveFailed, db, fs, 1, 0, 1⟩ := by
    have hloop : statusLoop envF.statusResp 0 3 =
        (LoopResult.parsed C out true, 1, 0) := by
      have := statusLoop_parsed envF.statusResp 0 2 ⟨some C, some out, true⟩ hrespF
        (by simpa [isTruthy, truthyStr] using hC)
        (by simpa [isTruthy, truthyStr] using hout)
      simpa using this
    have hA1 : already_downloaded envF.lookup1Ok db application_id report_id
        (some request_render_id) none = none :=
      already_downloaded_req_none _ _ _ _ _ hmiss
    have hA2 : already_downloaded envF.lookup2Ok db application_id report_id
        none (some C) = none :=
      already_downloaded_api_none _ _ _ _ _ hC hmiss2
    have hsv := save_file_locally_fetchFail envF.persist envF.sf envF.storagePath
      fs (envF.baseDomain ++ out)
      (renderFileName envF.sf application_id report_id C envF.nowStamp)
      (some (stripBearer (pyStr t))) hgF htokF hfF
    rw [get_report, cleanup_eq_self hk, get_report_core]
    simp [hA1, hA2, hloop, hsv, ha, hb, hq, ht]
  have hP : get_report envP db fs application_id report_id request_render_id t =
      ⟨Outcome.saveFailed, db,
        FS.write fs (envP.storagePath ++ "/" ++
          envP.sf (renderFileName envP.sf application_id report_id C envP.nowStamp)
          ++ ".tmp") envP.persist.chunks.flatten,
        1, 0, 1⟩ := by
    have hloop : statusLoop envP.statusResp 0 3 =
        (LoopResult.parsed C out true, 1, 0) := by
      have := statusLoop_parsed envP.statusResp 0 2 ⟨some C, some out, true⟩ hrespP
        (by simpa [isTruthy, truthyStr] using hC)
        (by simpa [isTruthy, truthyStr] using hout)
      simpa using this
    have hA1 : already_downloaded envP.lookup1Ok db application_id report_id
        (some request_render_id) none = none :=
      already_downloaded_req_none _ _ _ _ _ hmiss
    have hA2 : already_downloaded envP.lookup2Ok db application_id report_id
        none (some C) = none :=
      already_downloaded_api_none _ _ _ _ _ hC hmiss2
    have hsv := save_file_locally_moveFail envP.persist envP.sf envP.storagePath
      fs (envP.baseDomain ++ out)
      (renderFileName envP.sf application_id report_id C envP.nowStamp)
      (some (stripBearer (pyStr t))) hgP htokP hfP hwfP hmP
    rw [get_report, cleanup_eq_self hk, get_report_core]
    simp [hA1, hA2, hloop, hsv, ha, hb, hq, ht]
  rw [hF, hP]
  exact ⟨rfl, rfl, rfl, rfl, rfl⟩

/-- Witness for the amended C9 at the concrete scenario. -/
theorem fetch_persist_collapse_witness :
    (get_report envFetchFail [] ⟨[]⟩ "6" "25" "118545" (some "tok")).outcome
      = Outcome.saveFailed ∧
    (get_report envMoveFail [] ⟨[]⟩ "6" "25" "118545" (some "tok")).outcome
      = Outcome.saveFailed ∧
    (get_report envFetchFail [] ⟨[]⟩ "6" "25" "118545" (some "tok")).outcome
      = (get_report envMoveFail [] ⟨[]⟩ "6" "25" "118545" (some "tok")).outcome ∧
    (get_report envFetchFail [] ⟨[]⟩ "6" "25" "118545" (some "tok")).statusCalls
      = 1 ∧
    (get_report envMoveFail [] ⟨[]⟩ "6" "25" "118545" (some "tok")).statusCalls
      = 1 :=
  fetch_persist_collapse envFetchFail envMoveFail [] ⟨[]⟩ "6" "25" "118545"
    (some "tok") "118545" "/files/118545.csv"
    (by decide) (by decide) (by decide) (by decide) (by decide) (by decide)
    (by decide) (by decide) (by decide) rfl rfl rfl (by decide) rfl rfl
    (by decide) rfl rfl rfl

/-! ### C8 and C10: degradation to miss and the canonical-hit frame -/

/-- Whenever the request-render-id lookup comes back as a miss (for any
reason), the coordinator goes on to call the status endpoint at least once. -/
theorem get_report_statusCalls_pos (env : CoordEnv) (db : List RenderRecord)
    (fs : FS) (application_id report_id request_render_id : String)
    (t : Option String)
    (ha : application_id ≠ "") (hb : report_id ≠ "") (hq : request_render_id ≠ "")
    (ht : isTruthy t = true)
    (hA1 : already_downloaded env.lookup1Ok (cleanup_invalid_records db)
      application_id report_id (some request_render_id) none = none) :
    1 ≤ (get_report env db fs application_id report_id request_render_id t).statusCalls := by
  have hpos : 1 ≤ (statusLoop env.statusResp 0 3).2.1 :=
    statusLoop_calls_pos env.statusResp 0 2
  rw [get_report, get_report_core]
  rcases hsl : statusLoop env.statusResp 0 3 with ⟨res, calls, sleeps⟩
  rw [hsl] at hpos
  simp only at hpos
  cases res <;> simp [hA1, hsl, ha, hb, hq, ht, hpos]
  split <;> (try split) <;> (try split) <;> simpa using hpos

/-- C8: a storage-layer error during the ledger lookup degrades to a cache
miss (`already_downloaded` answers `None`) and the request proceeds — the
coordinator goes on to contact the status endpoint (at least one status
call) instead of failing the request with the storage error. -/
theorem ledger_error_degrades_to_miss
    (env : CoordEnv) (db : List RenderRecord) (fs : FS)
    (application_id report_id request_render_id : String) (t : Option String)
    (ha : application_id ≠ "") (hb : report_id ≠ "") (hq : request_render_id ≠ "")
    (ht : isTruthy t = true)
    (herr : env.lookup1Ok = false) :
    already_downloaded env.lookup1Ok (cleanup_invalid_records db)
      application_id report_id (some request_render_id) none = none ∧
    1 ≤ (get_report env db fs application_id report_id request_render_id t).statusCalls := by
  have hA1 : already_downloaded env.lookup1Ok (cleanup_invalid_records db)
      application_id report_id (some request_render_id) none = none := by
    rw [herr]; simp [already_downloaded]
  exact ⟨hA1, get_report_statusCalls_pos env db fs _ _ _ t ha hb hq ht hA1⟩

/-- An environment whose first ledger lookup raises a storage error. -/
def envLedgerDown : CoordEnv := { okEnv with lookup1Ok := false }

/-- Witness for C8: ledger lookup errors, yet the run proceeds upstream. -/
theorem ledger_error_degrades_to_miss_witness :
    already_downloaded envLedgerDown.lookup1Ok (cleanup_invalid_records [oldRec])
      "6" "25" (some "118545") none = none ∧
    1 ≤ (get_report envLedgerDown [oldRec] ⟨[]⟩ "6" "25" "118545"
      (some "tok")).statusCalls :=
  ledger_error_degrades_to_miss envLedgerDown [oldRec] ⟨[]⟩ "6" "25" "118545"
    (some "tok") (by decide) (by decide) (by decide) (by decide) rfl

/-- C10: a call answered from a canonical-id cache hit (the request id
having missed) leaves the ledger unchanged and performs no persist, so a
later call with the same request render id misses the request-id lookup
again and contacts the status endpoint again (at least one further status
call). -/
theorem canonical_hit_leaves_ledger_unchanged
    (env : CoordEnv) (db : List RenderRecord) (fs : FS)
    (application_id report_id request_render_id : String) (t : Option String)
    (C out : String) (is_ready : Bool) (rec : RenderRecord)
    (ha : application_id ≠ "") (hb : report_id ≠ "") (hq : request_render_id ≠ "")
    (ht : isTruthy t = true) (hk : KeysNodup db) (hC : C ≠ "") (hout : out ≠ "")
    (hmiss : db.find? (matchesReq application_id report_id request_render_id) = none)
    (hresp : env.statusResp 0 = ⟨200, some ⟨some C, some out, is_ready⟩⟩)
    (h2ok : env.lookup2Ok = true)
    (hhit : db.find? (matchesApi application_id report_id C) = some rec) :
    get_report env db fs application_id report_id request_render_id t =
      ⟨Outcome.cached rec.file_name C, db, fs, 1, 0, 0⟩ ∧
    1 ≤ (get_report env
      (get_report env db fs application_id report_id request_render_id t).db
      (get_report env db fs application_id report_id request_render_id t).fs
      application_id report_id request_render_id t).statusCalls := by
  have h1 : get_report env db fs application_id report_id request_render_id t =
      ⟨Outcome.cached rec.file_name C, db, fs, 1, 0, 0⟩ := by
    have hloop : statusLoop env.statusResp 0 3 =
        (LoopResult.parsed C out is_ready, 1, 0) := by
      have := statusLoop_parsed env.statusResp 0 2 ⟨some C, some out, is_ready⟩
        hresp (by simpa [isTruthy, truthyStr] using hC)
        (by simpa [isTruthy, truthyStr] using hout)
      simpa using this
    have hA1 : already_downloaded env.lookup1Ok db application_id report_id
        (some request_render_id) none = none :=
      already_downloaded_req_none _ _ _ _ _ hmiss
    have hA2 : already_downloaded env.lookup2Ok db application_id report_id
        none (some C) = some ⟨rec.file_name, rec.file_path⟩ := by
      rw [h2ok, already_downloaded_api db _ _ _ hC, hhit]; rfl
    rw [get_report, cleanup_eq_self hk, get_report_core]
    simp [hA1, hA2, hloop, ha, hb, hq, ht]
  refine ⟨h1, ?_⟩
  rw [h1]
  exact get_report_statusCalls_pos env db fs _ _ _ t ha hb hq ht
    (by rw [cleanup_eq_self hk]; exact already_downloaded_req_none _ _ _ _ _ hmiss)

/-- Witness for C10 at the concrete scenario: canonical hit on `oldRec`,
ledger unchanged, and the follow-up call goes upstream again. -/
theorem canonical_hit_leaves_ledger_unchanged_witness :
    get_report okEnv [oldRec] ⟨[]⟩ "6" "25" "118545" (some "tok") =
      ⟨Outcome.cached "old.csv" "118545", [oldRec], ⟨[]⟩, 1, 0, 0⟩ ∧
    1 ≤ (get_report okEnv
      (get_report okEnv [oldRec] ⟨[]⟩ "6" "25" "118545" (some "tok")).db
      (get_report okEnv [oldRec] ⟨[]⟩ "6" "25" "118545" (some "tok")).fs
      "6" "25" "118545" (some "tok")).statusCalls :=
  canonical_hit_leaves_ledger_unchanged okEnv [oldRec] ⟨[]⟩ "6" "25" "118545"
    (some "tok") "118545" "/files/118545.csv" true oldRec
    (by decide) (by decide) (by decide) (by decide) (by decide) (by decide)
    (by decide) (by decide) rfl rfl (by decide)

/-! ### C1: idempotence of the get-report operation -/

/-- C1: if a first coordinator run on a healthy ledger succeeded and
persisted an artifact (outcome "File saved successfully" for file `f`),
then a second run with the same `(application_id, report_id,
request_render_id, credential)` — under any upstream behaviour — answers
from the ledger: it returns the same `f` as a cache hit, performs zero
status calls and zero artifact fetch/persist attempts, and leaves the
ledger unchanged. -/
theorem get_report_idempotent
    (env1 env2 : CoordEnv) (db : List RenderRecord) (fs : FS)
    (application_id report_id request_render_id : String) (t : Option String)
    (f : String)
    (hk : KeysNodup db)
    (h2ok : env1.lookup2Ok = true) (hsave : env1.saveOk = true)
    (h1ok : env2.lookup1Ok = true)
    (h : (get_report env1 db fs application_id report_id request_render_id t).outcome
      = Outcome.saved f) :
    (get_report env2
        (get_report env1 db fs application_id report_id request_render_id t).db
        (get_report env1 db fs application_id report_id request_render_id t).fs
        application_id report_id request_render_id t).outcome
      = Outcome.cached f request_render_id ∧
    (get_report env2
        (get_report env1 db fs application_id report_id request_render_id t).db
        (get_report env1 db fs application_id report_id request_render_id t).fs
        application_id report_id request_render_id t).statusCalls = 0 ∧
    (get_report env2
        (get_report env1 db fs application_id report_id request_render_id t).db
        (get_report env1 db fs application_id report_id request_render_id t).fs
        application_id report_id request_render_id t).persistCalls = 0 ∧
    (get_report env2
        (get_report env1 db fs application_id report_id request_render_id t).db
        (get_report env1 db fs application_id report_id request_render_id t).fs
        application_id report_id request_render_id t).db
      = (get_report env1 db fs application_id report_id request_render_id t).db := by
  have h' := h
  rw [get_report, cleanup_eq_self hk, get_report_core] at h'
  by_cases hg1 : (application_id == "" || report_id == "" ||
      request_render_id == "") = true
  · rw [if_pos hg1] at h'; simp at h'
  rw [if_neg hg1] at h'
  have hg : (¬application_id = "" ∧ ¬report_id = "") ∧
      ¬request_render_id = "" := by simpa using hg1
  obtain ⟨⟨ha, hb2⟩, hq2⟩ := hg
  by_cases hg2 : (!(isTruthy t)) = true
  · rw [if_pos hg2] at h'; simp at h'
  rw [if_neg hg2] at h'
  have ht : isTruthy t = true := by simpa using hg2
  rcases hA1 : already_downloaded env1.lookup1Ok db application_id report_id
      (some request_render_id) none with _ | c
  swap
  · rw [hA1] at h'; simp at h'
  rw [hA1] at h'
  simp only [] at h'
  rcases hsl : statusLoop env1.statusResp 0 3 with
    ⟨_ | code | _ | _ | ⟨api, out, ready⟩, calls, sleeps⟩
  · rw [hsl] at h'; simp at h'
  · rw [hsl] at h'; simp at h'
  · rw [hsl] at h'; simp at h'
  · rw [hsl] at h'; simp at h'
  rw [hsl] at h'
  simp only [] at h'
  rcases hA2 : already_downloaded env1.lookup2Ok db application_id report_id
      none (some api) with _ | c2
  swap
  · rw [hA2] at h'; simp at h'
  rw [hA2] at h'
  simp only [] at h'
  by_cases hr : ready = true
  swap
  · rw [if_neg hr] at h'; simp at h'
  rw [if_pos hr] at h'
  rcases hsv : save_file_locally env1.persist env1.sf env1.storagePath fs
      (env1.baseDomain ++ out)
      (renderFileName env1.sf application_id report_id api env1.nowStamp)
      (some (stripBearer (pyStr t))) with ⟨_ | fp, fs1⟩
  · rw [hsv] at h'; simp at h'
  rw [hsv] at h'
  have hf : renderFileName env1.sf application_id report_id api env1.nowStamp
      = f := by simpa using h'
  subst hf
  have hapi : api ≠ "" :=
    statusLoop_parsed_id_ne env1.statusResp api out ready 0 3 (by rw [hsl])
  rw [h2ok] at hA2
  have hfind : db.find? (matchesApi application_id report_id api) = none :=
    find?_api_none_of_lookup_none hapi hA2
  have hnewdb : save_to_db env1.saveOk db application_id report_id
      request_render_id api
      (renderFileName env1.sf application_id report_id api env1.nowStamp) fp =
      (⟨application_id, report_id, request_render_id, api,
        renderFileName env1.sf application_id report_id api env1.nowStamp, fp⟩ :
        RenderRecord) :: db := by
    rw [hsave]
    exact save_to_db_insert _ _ _ hfind
  have hrun1 : get_report env1 db fs application_id report_id request_render_id t
      = ⟨Outcome.saved
          (renderFileName env1.sf application_id report_id api env1.nowStamp),
         (⟨application_id, report_id, request_render_id, api,
           renderFileName env1.sf application_id report_id api env1.nowStamp, fp⟩ :
           RenderRecord) :: db,
         fs1, calls, sleeps, 1⟩ := by
    rw [get_report, cleanup_eq_self hk, get_report_core]
    simp [hA1, hsl, hA2, h2ok, hr, hsv, hnewdb, ha, hb2, hq2, ht]
  have hk2 : KeysNodup ((⟨application_id, report_id, request_render_id, api,
      renderFileName env1.sf application_id report_id api env1.nowStamp, fp⟩ :
      RenderRecord) :: db) :=
    keysNodup_insert _ _ _ hk hfind
  have hfind2 : ((⟨application_id, report_id, request_render_id, api,
      renderFileName env1.sf application_id report_id api env1.nowStamp, fp⟩ :
      RenderRecord) :: db).find?
      (matchesReq application_id report_id request_render_id) = some
      ⟨application_id, report_id, request_render_id, api,
        renderFileName env1.sf application_id report_id api env1.nowStamp, fp⟩ := by
    rw [List.find?_cons_of_pos]
    simp [matchesReq]
  have hrun2 : get_report env2
      ((⟨application_id, report_id, request_render_id, api,
        renderFileName env1.sf application_id report_id api env1.nowStamp, fp⟩ :
        RenderRecord) :: db) fs1 application_id report_id request_render_id t
      = ⟨Outcome.cached
          (renderFileName env1.sf application_id report_id api env1.nowStamp)
          request_render_id,
         (⟨application_id, report_id, request_render_id, api,
           renderFileName env1.sf application_id report_id api env1.nowStamp, fp⟩ :
           RenderRecord) :: db,
         fs1, 0, 0, 0⟩ := by
    have hA1' : already_downloaded env2.lookup1Ok
        ((⟨application_id, report_id, request_render_id, api,
          renderFileName env1.sf application_id report_id api env1.nowStamp, fp⟩ :
          RenderRecord) :: db) application_id report_id
        (some request_render_id) none = some
        ⟨renderFileName env1.sf application_id report_id api env1.nowStamp, fp⟩ := by
      rw [h1ok, already_downloaded_req, hfind2]; rfl
    rw [get_report, cleanup_eq_self hk2, get_report_core]
    simp [hA1', ha, hb2, hq2, ht]
  rw [hrun1]
  simp only
  rw [hrun2]
  exact ⟨rfl, rfl, rfl, rfl⟩

/-- Witness for C1: a successful first run on an empty ledger, then the
identical second call is answered from the ledger with the same file name,
zero status calls and zero persist attempts. -/
theorem get_report_idempotent_witness :
    (get_report okEnv
        (get_report okEnv [] ⟨[]⟩ "6" "25" "118545" (some "tok")).db
        (get_report okEnv [] ⟨[]⟩ "6" "25" "118545" (some "tok")).fs
        "6" "25" "118545" (some "tok")).outcome
      = Outcome.cached "6-25-118545-20250101_000000.csv" "118545" ∧
    (get_report okEnv
        (get_report okEnv [] ⟨[]⟩ "6" "25" "118545" (some "tok")).db
        (get_report okEnv [] ⟨[]⟩ "6" "25" "118545" (some "tok")).fs
        "6" "25" "118545" (some "tok")).statusCalls = 0 ∧
    (get_report okEnv
        (get_report okEnv [] ⟨[]⟩ "6" "25" "118545" (some "tok")).db
        (get_report okEnv [] ⟨[]⟩ "6" "25" "118545" (some "tok")).fs
        "6" "25" "118545" (some "tok")).persistCalls = 0 ∧
    (get_report okEnv
        (get_report okEnv [] ⟨[]⟩ "6" "25" "118545" (some "tok")).db
        (get_report okEnv [] ⟨[]⟩ "6" "25" "118545" (some "tok")).fs
        "6" "25" "118545" (some "tok")).db
      = (get_report okEnv [] ⟨[]⟩ "6" "25" "118545" (some "tok")).db :=
  get_report_idempotent okEnv okEnv [] ⟨[]⟩ "6" "25" "118545" (some "tok")
    "6-25-118545-20250101_000000.csv" (by decide) rfl rfl rfl (by decide)
